import Mathlib

/-!
Shallow embedding of `main.py` (groww-portfolio-bot): a daily portfolio
notification script.  Python values flowing through the script are modelled by
`PyVal`; Python exceptions (`AttributeError`, `RuntimeError`, ...) are modelled
by the `Except String` monad; the external HTTP services (Perplexity, Twilio,
Groww) are modelled by explicit response parameters.  Machine floats are
modelled by `ℚ`; the concrete values exercised below are exactly representable,
so decimal formatting agrees with CPython on them.
-/

/-- A Python value, as used by the script: `None`, `str`, `int`, `float`
(modelled as a rational), `list`, `dict` (string keys, as in the JSON payloads
the script manipulates). -/
inductive PyVal where
  | none : PyVal
  | str (s : String) : PyVal
  | int (n : ℤ) : PyVal
  | float (q : ℚ) : PyVal
  | list (xs : List PyVal) : PyVal
  | dict (kvs : List (String × PyVal)) : PyVal

/-- Python truthiness: `None`, `""`, `0`, `0.0`, `[]`, `\x7b\x7d` are falsy. -/
def pyTruthy : PyVal → Bool
  | .none => false
  | .str s => !(s == "")
  | .int n => !(n == 0)
  | .float q => !(q == 0)
  | .list xs => !xs.isEmpty
  | .dict kvs => !kvs.isEmpty

/-- First-match association-list lookup (the dict literals used by the script
have distinct keys, so this is faithful to Python dict lookup). -/
def dictLookup : List (String × PyVal) → String → Option PyVal
  | [], _ => Option.none
  | (k, v) :: rest, key => if k == key then some v else dictLookup rest key

/-- Python `v.get(key)`: returns `None` when the key is absent; raises
`AttributeError` when `v` is not a dict (lists, strings, `None`, ... have no
`.get`). -/
def pyGet (v : PyVal) (key : String) : Except String PyVal :=
  match v with
  | .dict kvs => .ok ((dictLookup kvs key).getD PyVal.none)
  | _ => .error "AttributeError"

/-- Python `v.get(key, dflt)`: the default is used only when the key is absent;
raises `AttributeError` when `v` is not a dict. -/
def pyGetD (v : PyVal) (key : String) (dflt : PyVal) : Except String PyVal :=
  match v with
  | .dict kvs => .ok ((dictLookup kvs key).getD dflt)
  | _ => .error "AttributeError"

/-- Python `isinstance(v, dict)`. -/
def isPyDict : PyVal → Bool
  | .dict _ => true
  | _ => false

/-- Truthiness of an `os.getenv` result (`None` when the variable is unset;
an empty string is also falsy). -/
def keyTruthy : Option String → Bool
  | Option.none => false
  | some s => !(s == "")

/-- The whitespace characters recognised by Python `str.split()` /
`str.strip()` on the ASCII range (the non-ASCII unicode spaces are not
modelled; no input below contains them). -/
def isSpaceChar (c : Char) : Bool :=
  c == ' ' || c == '\t' || c == '\n' || c == '\r' || c == '\x0b' || c == '\x0c'

/-- Worker for Python `str.split()` (no argument): split on runs of
whitespace, discarding empty fields.  `acc` holds the current word reversed. -/
def splitWsAux : List Char → List Char → List (List Char)
  | [], acc => if acc = [] then [] else [acc.reverse]
  | c :: cs, acc =>
    if isSpaceChar c then
      if acc = [] then splitWsAux cs [] else acc.reverse :: splitWsAux cs []
    else
      splitWsAux cs (c :: acc)

/-- Python `" ".join(words)` at the character level. -/
def joinWordsCh : List (List Char) → List Char
  | [] => []
  | [w] => w
  | w :: ws => w ++ ' ' :: joinWordsCh ws

/-- Python `str.strip()` at the character level: drop leading and trailing
whitespace. -/
def pyStripCh (l : List Char) : List Char :=
  ((l.dropWhile isSpaceChar).reverse.dropWhile isSpaceChar).reverse

/-- Python `str.strip()`. -/
def pyStrip (s : String) : String :=
  String.mk (pyStripCh s.toList)

/-- Python `s.endswith(".")`. -/
def pyEndsWithDot (s : String) : Bool :=
  s.toList.getLast? == some '.'

/-- Numeric value of a run of decimal digits. -/
def digitsVal (ds : List Char) : ℕ :=
  ds.foldl (fun a c => a * 10 + (c.toNat - '0'.toNat)) 0

/-- Parse the optional exponent tail of a Python float literal: either nothing,
or `e`/`E`, an optional sign and at least one digit, consuming the whole rest. -/
def parseExpPart : List Char → Option ℤ
  | [] => some 0
  | c :: r =>
    if c == 'e' || c == 'E' then
      let (sg, r2) : ℤ × List Char :=
        match r with
        | '+' :: t => (1, t)
        | '-' :: t => (-1, t)
        | _ => (1, r)
      let ds := r2.takeWhile Char.isDigit
      if ds = [] then Option.none
      else if r2.dropWhile Char.isDigit = [] then some (sg * (digitsVal ds : ℤ))
      else Option.none
    else Option.none

/-- Assemble a float value from sign, integral mantissa and decimal exponent
(the arithmetic stays on integers; the rational is built once at the end). -/
def mantExp10ToRat (sg mant e : ℤ) : ℚ :=
  if 0 ≤ e then mkRat (sg * mant * 10 ^ e.toNat) 1
  else mkRat (sg * mant) (10 ^ (-e).toNat)

/-- Parse a whitespace-stripped Python float literal: optional sign, digits
with optional fraction (at least one digit overall), optional exponent.
`inf`, `nan` and underscore separators accepted by CPython are not modelled;
no input below uses them. -/
def parseFloatCore (cs0 : List Char) : Option ℚ :=
  let (sg, cs) : ℤ × List Char :=
    match cs0 with
    | '+' :: r => (1, r)
    | '-' :: r => (-1, r)
    | _ => (1, cs0)
  let ip := cs.takeWhile Char.isDigit
  let rest := cs.dropWhile Char.isDigit
  match rest with
  | '.' :: r2 =>
    let fp := r2.takeWhile Char.isDigit
    if ip = [] ∧ fp = [] then Option.none
    else
      match parseExpPart (r2.dropWhile Char.isDigit) with
      | some e =>
        some (mantExp10ToRat sg ((digitsVal ip : ℤ) * 10 ^ fp.length + (digitsVal fp : ℤ))
          (e - (fp.length : ℤ)))
      | Option.none => Option.none
  | _ =>
    if ip = [] then Option.none
    else
      match parseExpPart rest with
      | some e => some (mantExp10ToRat sg (digitsVal ip : ℤ) e)
      | Option.none => Option.none

/-- Python `float(s)` on a string: surrounding whitespace is ignored. -/
def parsePyFloat (s : String) : Option ℚ :=
  parseFloatCore (pyStripCh s.toList)

/-- Python `f"\x7bx:.2f\x7d"` on the exact value `x : ℚ`: round to the
nearest hundredth, ties to even (CPython's fixed-point rounding), computed on
the numerator and denominator directly: `f = ⌊100·q⌋`, and
`r2 = 2·(100·num − f·den)` is compared with `den` to pick the direction. -/
def formatFixed2 (q : ℚ) : String :=
  let a : ℤ := q.num * 100
  let b : ℤ := (q.den : ℤ)
  let f : ℤ := Int.fdiv a b
  let r2 : ℤ := 2 * (a - f * b)
  let n : ℤ := if b < r2 then f + 1 else if r2 < b then f else if f % 2 = 0 then f else f + 1
  let m := n.natAbs
  let r := m % 100
  let s := toString (m / 100) ++ "." ++ (if r < 10 then "0" ++ toString r else toString r)
  if n < 0 then "-" ++ s else s

/-- The `try: avg_price = float(avg_price) except: avg_price = 0.0` step of
`compose_portfolio_message` (main.py:133-136): coercion failure of any kind
defaults to `0.0`. -/
def coerceAvgPrice : PyVal → ℚ
  | .int n => (n : ℚ)
  | .float q => q
  | .str s => (parsePyFloat s).getD 0
  | _ => 0

/-- Python `str(float)` for decimal-terminating rationals (CPython's
shortest-roundtrip repr of binary floats is not modelled; the fallback branch
is unused by every flow below). -/
def formatFloatStr (q : ℚ) : String :=
  match (List.range 28).find? (fun k => 10 ^ k % q.den == 0) with
  | some 0 => toString q.num ++ ".0"
  | some k =>
    let a := q.num.natAbs * (10 ^ k / q.den)
    let fs := toString (a % 10 ^ k)
    (if q.num < 0 then "-" else "") ++ toString (a / 10 ^ k) ++ "." ++
      String.mk (List.replicate (k - fs.length) '0') ++ fs
  | Option.none => toString q.num ++ "/" ++ toString q.den

/-- Python `str(v)` as used inside the f-string of main.py:138 (container
repr is abbreviated; no flow below formats a container). -/
def pyStr : PyVal → String
  | .none => "None"
  | .str s => s
  | .int n => toString n
  | .float q => formatFloatStr q
  | .list _ => "[...]"
  | .dict _ => "\x7b...\x7d"

/-- Python `str.upper()` (ASCII; the holdings symbols are ASCII). -/
def pyUpperStr (s : String) : String :=
  String.mk (s.toList.map Char.toUpper)

/-- Python `v.upper()`: only strings have `.upper`; anything else raises
`AttributeError`. -/
def pyUpperVal : PyVal → Except String String
  | .str s => .ok (pyUpperStr s)
  | _ => .error "AttributeError"

/-- Outcome of the Perplexity HTTP POST (main.py:90-91): either some exception
during the request / status check, or a decoded JSON body. -/
inductive InsightNet where
  | failure : InsightNet
  | success (data : PyVal) : InsightNet

/-- Extraction of the insight text from the decoded response
(main.py:96-104): `text = ""`, then the first choice's `message.content`,
else its `text` field, each taken only when truthy. -/
def extractChoiceText (data : PyVal) : Except String PyVal := do
  let choices ← pyGetD data "choices" (PyVal.list [])
  match choices with
  | .list (c :: _) => do
    let msg ← pyGetD c "message" (PyVal.dict [])
    let content ← pyGet msg "content"
    if pyTruthy content then pure content
    else do
      let t ← pyGet c "text"
      pure (if pyTruthy t then t else PyVal.str "")
  | _ => pure (PyVal.str "")

/-- Python `" ".join(text.split()).strip()` (main.py:106). -/
def normalizeInsight (s : String) : String :=
  pyStrip (String.mk (joinWordsCh (splitWsAux s.toList [])))

/-- Lines 106-108 of main.py: normalize whitespace, then append a period
unless the text already ends with one. -/
def finishInsight (s : String) : String :=
  let t := normalizeInsight s
  if pyEndsWithDot t then t else t ++ "."

/-- `ask_perplexity_for_insight` (main.py:66-109).  The API key and the
network outcome are explicit parameters; the ticker only feeds the prompt
text, which lives inside the opaque network call.  A request failure is
caught (returns `""`); a non-string truthy `content`/`text` field raises at
`text.split()`. -/
def ask_perplexity_for_insight (apiKey : Option String) (net : InsightNet)
    (_ticker : String) : Except String String :=
  if keyTruthy apiKey then
    match net with
    | .failure => .ok ""
    | .success data => do
      let tv ← extractChoiceText data
      match tv with
      | .str s => pure (finishInsight s)
      | _ => .error "AttributeError"
  else .ok ""

/-- The symbol `or`-chain of main.py:130:
`h.get("trading_symbol") or h.get("symbol") or h.get("ticker") or "Unknown"`,
with Python truthiness-based short-circuiting. -/
def resolveSymbol (h : PyVal) : Except String PyVal := do
  let s0 ← pyGet h "trading_symbol"
  if pyTruthy s0 then pure s0
  else do
    let s1 ← pyGet h "symbol"
    if pyTruthy s1 then pure s1
    else do
      let s2 ← pyGet h "ticker"
      pure (if pyTruthy s2 then s2 else PyVal.str "Unknown")

/-- A two-key truthiness fallback chain ending in a literal default, the shape
of main.py:131 (`quantity` / `qty` / `0`) and main.py:132
(`average_price` / `avg_price` / `0.0`). -/
def resolveField2 (h : PyVal) (k1 k2 : String) (dflt : PyVal) : Except String PyVal := do
  let v0 ← pyGet h k1
  if pyTruthy v0 then pure v0
  else do
    let v1 ← pyGet h k2
    pure (if pyTruthy v1 then v1 else dflt)

/-- The loop body of `compose_portfolio_message` (main.py:129-146) for one
holding: resolve symbol / quantity / average price through truthiness-based
fallback chains, format the holding line, fetch the insight, and emit the
three lines appended for this holding.  `insightFn` stands for
`ask_perplexity_for_insight` with its globals and network fixed; the ticker it
receives is the `str()` of the resolved symbol, which only feeds the prompt. -/
def holdingLines (insightFn : String → Except String String) (h : PyVal) :
    Except String (List String) := do
  let symV ← resolveSymbol h
  let qtyV ← resolveField2 h "quantity" "qty" (PyVal.int 0)
  let avgV ← resolveField2 h "average_price" "avg_price" (PyVal.float 0)
  let avg := coerceAvgPrice avgV
  let symU ← pyUpperVal symV
  let line := "• " ++ symU ++ " | Qty: " ++ pyStr qtyV ++ " | Avg: ₹" ++ formatFixed2 avg
  let ins ← insightFn (pyStr symV)
  let insLine := if !(ins == "") then "  " ++ ins else "  (No update available)"
  pure [line, insLine, ""]

/-- The `or`-chain of main.py:119-121, evaluated left to right with Python
short-circuiting (so a later `.get` that would raise is not reached when an
earlier alternative is truthy); the last alternative is returned whatever its
truthiness.  Only called when `holdings_json` is a dict. -/
def resolveHoldingsChain (j : PyVal) : Except String PyVal := do
  let p ← pyGetD j "payload" (PyVal.dict [])
  let a ← pyGet p "holdings"
  if pyTruthy a then pure a
  else do
    let dd ← pyGetD j "data" (PyVal.dict [])
    let b ← pyGet dd "holdings"
    if pyTruthy b then pure b
    else pyGet j "holdings"

/-- `compose_portfolio_message` (main.py:113-148). -/
def compose_portfolio_message (insightFn : String → Except String String)
    (holdings_json : PyVal) : Except String String := do
  let header := "📊 Daily Portfolio Update\n"
  let first ←
    if isPyDict holdings_json then resolveHoldingsChain holdings_json
    else pure PyVal.none
  let hl ←
    match first with
    | .list _ => pure first
    | _ => do
      let p ← pyGet holdings_json "payload"
      match p with
      | .list _ => pure p
      | _ => pure first
  match hl with
  | .list hs => do
    let blocks ← hs.mapM (holdingLines insightFn)
    pure (pyStrip (String.intercalate "\n" (header :: blocks.flatten)))
  | _ => pure "No holdings found."

/-- The four Twilio/WhatsApp environment variables (main.py:34-37). -/
structure TwilioConfig where
  sid : Option String
  auth : Option String
  fromNum : Option String
  toNum : Option String

/-- Outcome of the Twilio client construction plus `messages.create`
(main.py:155-156): a message with a delivery sid, or any exception. -/
inductive TwilioNet where
  | sendOk (sid : String) : TwilioNet
  | sendFail : TwilioNet

/-- Observable behaviour of `send_whatsapp`: whether the provider send was
attempted, whether the body was printed to the console, and the returned
value (`msg.sid` or `None`). -/
structure SendResult where
  attemptedSend : Bool
  printedBody : Bool
  returned : Option String
deriving DecidableEq

/-- The credential check of main.py:153 (`if TWILIO_SID and TWILIO_AUTH and
TWILIO_FROM and WHATSAPP_TO`): Python truthiness of each variable. -/
def credsConfigured (cfg : TwilioConfig) : Bool :=
  keyTruthy cfg.sid && keyTruthy cfg.auth && keyTruthy cfg.fromNum && keyTruthy cfg.toNum

/-- `send_whatsapp` (main.py:152-165). -/
def send_whatsapp (cfg : TwilioConfig) (net : TwilioNet) (_body : String) : SendResult :=
  if credsConfigured cfg then
    match net with
    | .sendOk sid => ⟨true, false, some sid⟩
    | .sendFail => ⟨true, true, Option.none⟩
  else ⟨false, true, Option.none⟩

/-- `get_groww_access_token` (main.py:44-50): the TOTP generation and the SDK
exchange are external; `tokenFromSdk` is whatever
`GrowwAPI.get_access_token` returned.  A falsy token raises `RuntimeError`. -/
def get_groww_access_token (tokenFromSdk : PyVal) : Except String PyVal :=
  if pyTruthy tokenFromSdk then .ok tokenFromSdk
  else .error "RuntimeError: Failed to retrieve access_token from Groww SDK."

/-- The body of the `try` block in `run` (main.py:171-176): token exchange,
holdings fetch (its network outcome is the parameter `holdingsFetch`),
message composition, delivery.  The composed message is returned for
observation. -/
def runPipeline (tokenFromSdk : PyVal) (holdingsFetch : Except String PyVal)
    (insightFn : String → Except String String) (cfg : TwilioConfig)
    (net : TwilioNet) : Except String String := do
  let _tok ← get_groww_access_token tokenFromSdk
  let hj ← holdingsFetch
  let msg ← compose_portfolio_message insightFn hj
  let _ := send_whatsapp cfg net msg
  pure msg

/-- `run` (main.py:169-178): the whole pipeline inside `try/except`; any
exception is logged and swallowed, so `run` always terminates normally
(`Option.none` = the run failed and was logged). -/
def run (tokenFromSdk : PyVal) (holdingsFetch : Except String PyVal)
    (insightFn : String → Except String String) (cfg : TwilioConfig)
    (net : TwilioNet) : Option String :=
  (runPipeline tokenFromSdk holdingsFetch insightFn cfg net).toOption

/-- Whitespace-normalisation scanner: `prevSp` records whether the previous
character was a separator (initially `true`, so a leading space is rejected);
every whitespace character must be a single `' '` between non-space runs, and
the string must not end in a space. -/
def wsScan : Bool → List Char → Bool
  | prevSp, [] => !prevSp
  | prevSp, c :: cs =>
    if isSpaceChar c then (c == ' ') && (!prevSp) && wsScan true cs
    else wsScan false cs

/-- A string is whitespace-normalized: no leading or trailing whitespace, and
every internal whitespace run is a single space. -/
def isNormalized (s : String) : Bool :=
  s.toList.isEmpty || wsScan true s.toList

/-- Number of consecutive `'.'` characters at the end of a string. -/
def trailingDots (s : String) : ℕ :=
  (s.toList.reverse.takeWhile (fun c => c == '.')).length

/-- An insight oracle that always answers with the empty insight — the
behaviour of `ask_perplexity_for_insight` whenever the API key is unset. -/
def noInsight : String → Except String String := fun _ => .ok ""

/-- The end-to-end example holding of the spec:
`\x7bsymbol: "TCS", quantity: 10, average_price: 3250.5\x7d`
(`mkRat 6501 2 = 3250.5`, exactly representable in binary floating point). -/
def tcsHolding : PyVal :=
  PyVal.dict [("symbol", .str "TCS"), ("quantity", .int 10), ("average_price", .float (mkRat 6501 2))]

/-! ### Helper lemmas about the whitespace normalisation of main.py:106 -/

theorem splitWsAux_words : ∀ (cs acc : List Char),
    (∀ c ∈ acc, isSpaceChar c = false) →
    ∀ w ∈ splitWsAux cs acc, w ≠ [] ∧ ∀ c ∈ w, isSpaceChar c = false := by
  intro cs
  induction cs with
  | nil =>
    intro acc hacc w hw
    by_cases h : acc = []
    · simp [splitWsAux, h] at hw
    · simp [splitWsAux, h] at hw
      subst hw
      refine ⟨by simpa using h, ?_⟩
      intro c hc
      exact hacc c (List.mem_reverse.mp hc)
  | cons c cs ih =>
    intro acc hacc w hw
    cases hsp : isSpaceChar c with
    | true =>
      by_cases h : acc = []
      · simp [splitWsAux, hsp, h] at hw
        exact ih [] (by simp) w hw
      · simp [splitWsAux, hsp, h] at hw
        rcases hw with hw | hw
        · subst hw
          refine ⟨by simpa using h, ?_⟩
          intro d hd
          exact hacc d (List.mem_reverse.mp hd)
        · exact ih [] (by simp) w hw
    | false =>
      simp [splitWsAux, hsp] at hw
      refine ih (c :: acc) ?_ w hw
      intro d hd
      rcases List.mem_cons.mp hd with h1 | h1
      · subst h1; exact hsp
      · exact hacc d h1

theorem wsScan_word : ∀ (w : List Char) (b : Bool) (rest : List Char),
    w ≠ [] → (∀ c ∈ w, isSpaceChar c = false) →
    wsScan b (w ++ rest) = wsScan false rest := by
  intro w
  induction w with
  | nil => intro b rest h _; exact absurd rfl h
  | cons c w ih =>
    intro b rest _ hw
    have hc : isSpaceChar c = false := hw c (by simp)
    rw [List.cons_append, wsScan, hc]
    simp only [Bool.false_eq_true, if_false]
    by_cases hw0 : w = []
    · subst hw0; rfl
    · exact ih false rest hw0 (fun x hx => hw x (List.mem_cons_of_mem _ hx))

theorem wsScan_joinWords : ∀ (ws : List (List Char)),
    (∀ w ∈ ws, w ≠ [] ∧ ∀ c ∈ w, isSpaceChar c = false) →
    ws ≠ [] → wsScan true (joinWordsCh ws) = true := by
  intro ws
  induction ws with
  | nil => intro _ h; exact absurd rfl h
  | cons w ws ih =>
    intro hws _
    obtain ⟨hw1, hw2⟩ := hws w (by simp)
    rcases ws with _ | ⟨w2, rest⟩
    · show wsScan true (joinWordsCh [w]) = true
      have hj : joinWordsCh [w] = w ++ [] := by simp [joinWordsCh]
      rw [hj, wsScan_word w true [] hw1 hw2]
      rfl
    · show wsScan true (joinWordsCh (w :: w2 :: rest)) = true
      have hj : joinWordsCh (w :: w2 :: rest) = w ++ ' ' :: joinWordsCh (w2 :: rest) := by
        simp [joinWordsCh]
      rw [hj, wsScan_word w true _ hw1 hw2, wsScan]
      have hsp : isSpaceChar ' ' = true := by decide
      rw [hsp]
      simp only [if_true]
      have hb : (' ' == ' ') = true := by decide
      rw [hb]
      simp only [Bool.not_false, Bool.true_and, Bool.and_true]
      exact ih (fun x hx => hws x (List.mem_cons_of_mem _ hx)) (by simp)

theorem wsScan_append_dot : ∀ (l : List Char) (b : Bool),
    wsScan b l = true → wsScan b (l ++ ['.']) = true := by
  intro l
  induction l with
  | nil =>
    intro b h
    have hb : b = false := by simpa [wsScan] using h
    subst hb
    decide
  | cons c cs ih =>
    intro b h
    cases hsp : isSpaceChar c with
    | true =>
      rw [List.cons_append, wsScan, hsp]
      rw [wsScan, hsp] at h
      simp only [if_true, Bool.and_eq_true] at h ⊢
      exact ⟨h.1, ih true h.2⟩
    | false =>
      rw [List.cons_append, wsScan, hsp]
      rw [wsScan, hsp] at h
      simp only [Bool.false_eq_true, if_false] at h ⊢
      exact ih false h

theorem wsScan_last : ∀ (l : List Char) (b : Bool) (c : Char),
    wsScan b l = true → l.getLast? = some c → isSpaceChar c = false := by
  intro l
  induction l with
  | nil => intro b c _ h2; simp at h2
  | cons d cs ih =>
    intro b c h1 h2
    rcases cs with _ | ⟨e, cs'⟩
    · simp at h2
      cases hsp : isSpaceChar d with
      | true => rw [wsScan, hsp] at h1; simp [wsScan] at h1
      | false => rw [← h2]; exact hsp
    · have h2' : (e :: cs').getLast? = some c := by
        simpa [List.getLast?_cons_cons] using h2
      cases hsp : isSpaceChar d with
      | true =>
        rw [wsScan, hsp] at h1
        simp only [if_true, Bool.and_eq_true] at h1
        exact ih true c h1.2 h2'
      | false =>
        rw [wsScan, hsp] at h1
        simp only [Bool.false_eq_true, if_false] at h1
        exact ih false c h1 h2'

theorem pyStripCh_of_scan (l : List Char) (h : wsScan true l = true) : pyStripCh l = l := by
  rcases l with _ | ⟨c, cs⟩
  · rfl
  · have hc : isSpaceChar c = false := by
      cases hsp : isSpaceChar c with
      | true => rw [wsScan, hsp] at h; simp [wsScan] at h
      | false => rfl
    have h1 : (c :: cs).dropWhile isSpaceChar = c :: cs := by
      simp [List.dropWhile, hc]
    rcases hrev : (c :: cs).reverse with _ | ⟨d, t⟩
    · exact absurd hrev (by simp)
    · have hd : isSpaceChar d = false := by
        have hh : (c :: cs).reverse.head? = some d := by rw [hrev]; rfl
        rw [List.head?_reverse] at hh
        exact wsScan_last _ true d h hh
      have h2 : (c :: cs).reverse.dropWhile isSpaceChar = (c :: cs).reverse := by
        rw [hrev, List.dropWhile_cons]
        simp [hd]
      unfold pyStripCh
      rw [h1, h2, List.reverse_reverse]

theorem isNormalized_normalizeInsight (s : String) :
    isNormalized (normalizeInsight s) = true := by
  have hwords := splitWsAux_words s.toList [] (by simp)
  unfold normalizeInsight pyStrip isNormalized
  rcases hw0 : splitWsAux s.toList [] with _ | ⟨w, ws'⟩
  · simp [joinWordsCh, pyStripCh]
  · rw [hw0] at hwords
    have hscan : wsScan true (joinWordsCh (w :: ws')) = true :=
      wsScan_joinWords _ hwords (by simp)
    have hstrip : pyStripCh (joinWordsCh (w :: ws')) = joinWordsCh (w :: ws') :=
      pyStripCh_of_scan _ hscan
    show ((pyStripCh (joinWordsCh (w :: ws'))).isEmpty
        || wsScan true (pyStripCh (joinWordsCh (w :: ws')))) = true
    rw [hstrip, hscan]
    simp

theorem finishInsight_normalized (s : String) :
    isNormalized (finishInsight s) = true ∧ pyEndsWithDot (finishInsight s) = true := by
  unfold finishInsight
  by_cases hd : pyEndsWithDot (normalizeInsight s) = true
  · simp only [hd, if_true]
    exact ⟨isNormalized_normalizeInsight s, trivial⟩
  · simp only [hd, Bool.false_eq_true, if_false]
    have htl : (normalizeInsight s ++ ".").toList = (normalizeInsight s).toList ++ ['.'] := by
      show (normalizeInsight s ++ ".").data = (normalizeInsight s).data ++ ['.']
      simp
    constructor
    · have hn := isNormalized_normalizeInsight s
      unfold isNormalized at hn ⊢
      rw [htl]
      rcases h0 : (normalizeInsight s).toList with _ | ⟨c, cs⟩
      · decide
      · have hn2 : wsScan true (c :: cs) = true := by
          have hn3 := isNormalized_normalizeInsight s
          unfold isNormalized at hn3
          rw [h0] at hn3
          simpa using hn3
        show ((c :: cs ++ ['.']).isEmpty || wsScan true (c :: cs ++ ['.'])) = true
        have hap := wsScan_append_dot (c :: cs) true hn2
        simp only [List.cons_append] at hap ⊢
        rw [hap]
        simp
    · unfold pyEndsWithDot
      rw [htl, List.getLast?_concat]
      rfl

/-! ### Claim theorems -/

/-- C1: the spec claims the composer resolves the same holdings list from all
four nesting conventions (`payload.holdings`, `data.holdings`, `holdings`,
`payload` itself a list).  The first three agree on any non-empty list, but
the fourth is unreachable: when `payload` maps to a list, line 119's
`holdings_json.get("payload", \x7b\x7d).get("holdings")` calls `.get` on that
list and raises `AttributeError` before the payload-as-list branch of
line 123 runs.  This theorem records both facts. -/
theorem holdings_shape_resolution (insightFn : String → Except String String)
    (hs : List PyVal) (hne : hs ≠ []) :
    (compose_portfolio_message insightFn
        (PyVal.dict [("payload", PyVal.dict [("holdings", PyVal.list hs)])]) =
      compose_portfolio_message insightFn
        (PyVal.dict [("data", PyVal.dict [("holdings", PyVal.list hs)])]))
    ∧ (compose_portfolio_message insightFn
        (PyVal.dict [("data", PyVal.dict [("holdings", PyVal.list hs)])]) =
      compose_portfolio_message insightFn (PyVal.dict [("holdings", PyVal.list hs)]))
    ∧ compose_portfolio_message insightFn (PyVal.dict [("payload", PyVal.list hs)]) =
      .error "AttributeError" := by
  rcases hs with _ | ⟨h0, t⟩
  · exact absurd rfl hne
  · exact ⟨rfl, rfl, rfl⟩

/-- C1 witness: the three conventions agree and the fourth raises, at the
concrete single-holding list of the spec's example. -/
theorem holdings_shape_resolution_witness :
    compose_portfolio_message noInsight (PyVal.dict [("payload", PyVal.list [tcsHolding])]) =
      .error "AttributeError" :=
  (holdings_shape_resolution noInsight [tcsHolding] (by simp)).2.2

/-- C2: the spec claims that any input with no resolvable holdings list —
explicitly including a non-dict top-level value — yields exactly
`"No holdings found."` without raising.  A dict input whose paths all miss
does yield that string, but a non-dict top-level value reaches
`holdings_json.get("payload")` (main.py:123, outside the line-118
`isinstance` guard) and raises `AttributeError`. -/
theorem compose_no_holdings_default (insightFn : String → Except String String) :
    compose_portfolio_message insightFn (PyVal.dict [("foo", PyVal.int 1)]) =
      .ok "No holdings found."
    ∧ compose_portfolio_message insightFn (PyVal.list []) = .error "AttributeError" :=
  ⟨rfl, rfl⟩

/-- C3: end-to-end composition for the single holding
`\x7bsymbol: "TCS", quantity: 10, average_price: 3250.5\x7d` with the insight
service key unconfigured: header line, blank line, holding line, placeholder
insight line, trailing whitespace trimmed. -/
theorem compose_tcs_example :
    compose_portfolio_message (ask_perplexity_for_insight Option.none .failure)
      (PyVal.dict [("holdings", PyVal.list [tcsHolding])]) =
    .ok "📊 Daily Portfolio Update\n\n• TCS | Qty: 10 | Avg: ₹3250.50\n  (No update available)" :=
  rfl

/-- C9 counterexample: the claim says an empty list under any of the three
keys — including the bare `holdings` key — is treated as absent, so that
resolution falls through to the next path (which here finds nothing, i.e. the
claim predicts `"No holdings found."`).  In fact the `or`-chain returns its
last alternative regardless of truthiness, so `\x7b"holdings": []\x7d` is
accepted as the (empty) holdings list and the composer emits a header-only
message. -/
theorem empty_holdings_key_not_absent :
    compose_portfolio_message noInsight (PyVal.dict [("holdings", PyVal.list [])]) =
      .ok "📊 Daily Portfolio Update"
    ∧ compose_portfolio_message noInsight (PyVal.dict [("holdings", PyVal.list [])]) ≠
      .ok "No holdings found." := by
  refine ⟨rfl, fun h => ?_⟩
  have h2 : (Except.ok "📊 Daily Portfolio Update" : Except String String) =
      Except.ok "No holdings found." := h
  injection h2 with h3
  exact absurd h3 (by decide)

/-- C9 (amended): truthiness-based resolution holds for the first two list
paths (an empty `payload.holdings` or `data.holdings` falls through to the
next path), while an empty list under the final `holdings` key is returned
as-is, giving a header-only message; and a present-but-falsy holding field
(quantity `0`, average price `""`) is resolved exactly as if the key were
absent, via the fallback key or the default. -/
theorem truthiness_resolution (insightFn : String → Except String String)
    (hs : List PyVal) (q : ℤ) (v : PyVal) :
    (compose_portfolio_message insightFn
        (PyVal.dict [("payload", PyVal.dict [("holdings", PyVal.list [])]),
                     ("data", PyVal.dict [("holdings", PyVal.list hs)])]) =
      compose_portfolio_message insightFn
        (PyVal.dict [("data", PyVal.dict [("holdings", PyVal.list hs)])]))
    ∧ (compose_portfolio_message insightFn
        (PyVal.dict [("data", PyVal.dict [("holdings", PyVal.list [])]),
                     ("holdings", PyVal.list hs)]) =
      compose_portfolio_message insightFn (PyVal.dict [("holdings", PyVal.list hs)]))
    ∧ compose_portfolio_message insightFn (PyVal.dict [("holdings", PyVal.list [])]) =
      .ok "📊 Daily Portfolio Update"
    ∧ (holdingLines insightFn
        (PyVal.dict [("symbol", PyVal.str "A"), ("quantity", PyVal.int 0), ("qty", PyVal.int q)]) =
      holdingLines insightFn (PyVal.dict [("symbol", PyVal.str "A"), ("qty", PyVal.int q)]))
    ∧ (holdingLines insightFn
        (PyVal.dict [("symbol", PyVal.str "A"), ("average_price", PyVal.str ""), ("avg_price", v)]) =
      holdingLines insightFn (PyVal.dict [("symbol", PyVal.str "A"), ("avg_price", v)])) :=
  ⟨rfl, rfl, rfl, rfl, rfl⟩

/-- C10: a success response with an empty `choices` list — or a first choice
whose `content` is empty — leaves the extracted text empty, so the appended
period makes the insight exactly `"."`; that string is truthy, so the
composed insight line is `"  ."` rather than the placeholder. -/
theorem empty_choices_insight_line :
    ask_perplexity_for_insight (some "k")
      (.success (PyVal.dict [("choices", PyVal.list [])])) "TCS" = .ok "."
    ∧ ask_perplexity_for_insight (some "k")
        (.success (PyVal.dict [("choices",
          PyVal.list [PyVal.dict [("message", PyVal.dict [("content", PyVal.str "")])]])])) "TCS" =
      .ok "."
    ∧ compose_portfolio_message
        (ask_perplexity_for_insight (some "k") (.success (PyVal.dict [("choices", PyVal.list [])])))
        (PyVal.dict [("holdings", PyVal.list [tcsHolding])]) =
      .ok "📊 Daily Portfolio Update\n\n• TCS | Qty: 10 | Avg: ₹3250.50\n  ." :=
  ⟨rfl, rfl, rfl⟩

/-- Unfolding of `ask_perplexity_for_insight` on a success response when the
API key is configured. -/
theorem ask_success_eq (apiKey : Option String) (data : PyVal) (t : String)
    (hk : keyTruthy apiKey = true) :
    ask_perplexity_for_insight apiKey (.success data) t =
      (do
        let tv ← extractChoiceText data
        match tv with
        | PyVal.str s => pure (finishInsight s)
        | _ => .error "AttributeError") := by
  unfold ask_perplexity_for_insight
  rw [if_pos hk]

/-- C4: for any holding whose average price resolves to the string `"123.4"`,
the formatted line reads `... | Avg: ₹123.40`, and for the unparsable
`"N/A"` the coercion defaults to `0.0`, giving `... | Avg: ₹0.00` — for any
truthy symbol, any integer quantity and any insight oracle. -/
theorem avg_price_coercion_formatting (sym : String) (q : ℤ) (hsym : sym ≠ "") :
    (∀ (insightFn : String → Except String String) (lns : List String),
      holdingLines insightFn
        (PyVal.dict [("symbol", PyVal.str sym), ("quantity", PyVal.int q),
                     ("average_price", PyVal.str "123.4")]) = .ok lns →
      lns.get? 0 =
        some ("• " ++ pyUpperStr sym ++ " | Qty: " ++ toString q ++ " | Avg: ₹" ++ "123.40"))
    ∧ (∀ (insightFn : String → Except String String) (lns : List String),
      holdingLines insightFn
        (PyVal.dict [("symbol", PyVal.str sym), ("quantity", PyVal.int q),
                     ("average_price", PyVal.str "N/A")]) = .ok lns →
      lns.get? 0 =
        some ("• " ++ pyUpperStr sym ++ " | Qty: " ++ toString q ++ " | Avg: ₹" ++ "0.00")) := by
  have hb : ((sym == "") : Bool) = false := by simpa using hsym
  have hsymres : ∀ ap : PyVal, resolveSymbol
      (PyVal.dict [("symbol", PyVal.str sym), ("quantity", PyVal.int q), ("average_price", ap)]) =
      .ok (PyVal.str sym) := by
    intro ap
    unfold resolveSymbol
    simp [pyGet, dictLookup, pyTruthy, hb, Bind.bind, Except.bind, pure, Except.pure]
  have hqty : ∀ ap : PyVal, resolveField2
      (PyVal.dict [("symbol", PyVal.str sym), ("quantity", PyVal.int q), ("average_price", ap)])
      "quantity" "qty" (PyVal.int 0) = .ok (PyVal.int q) := by
    intro ap
    unfold resolveField2
    by_cases hq : q = 0
    · subst hq; rfl
    · have hq2 : ((q == 0) : Bool) = false := by simpa using hq
      simp [pyGet, dictLookup, pyTruthy, hq2, Bind.bind, Except.bind, pure, Except.pure]
  constructor
  · intro insightFn lns hl
    unfold holdingLines at hl
    simp only [Bind.bind, Except.bind] at hl
    rw [hsymres, hqty] at hl
    have havg : resolveField2
        (PyVal.dict [("symbol", PyVal.str sym), ("quantity", PyVal.int q),
                     ("average_price", PyVal.str "123.4")])
        "average_price" "avg_price" (PyVal.float 0) = .ok (PyVal.str "123.4") := rfl
    rw [havg] at hl
    simp only [pyUpperVal] at hl
    rcases hins : insightFn (pyStr (PyVal.str sym)) with e | ins <;> rw [hins] at hl
    · simp at hl
    · simp only [pure, Except.pure] at hl
      simp at hl
      rw [← hl]
      show some _ = _
      have hfmt : formatFixed2 (coerceAvgPrice (PyVal.str "123.4")) = "123.40" := rfl
      simp [hfmt, pyStr]
  · intro insightFn lns hl
    unfold holdingLines at hl
    simp only [Bind.bind, Except.bind] at hl
    rw [hsymres, hqty] at hl
    have havg : resolveField2
        (PyVal.dict [("symbol", PyVal.str sym), ("quantity", PyVal.int q),
                     ("average_price", PyVal.str "N/A")])
        "average_price" "avg_price" (PyVal.float 0) = .ok (PyVal.str "N/A") := rfl
    rw [havg] at hl
    simp only [pyUpperVal] at hl
    rcases hins : insightFn (pyStr (PyVal.str sym)) with e | ins <;> rw [hins] at hl
    · simp at hl
    · simp only [pure, Except.pure] at hl
      simp at hl
      rw [← hl]
      show some _ = _
      have hfmt : formatFixed2 (coerceAvgPrice (PyVal.str "N/A")) = "0.00" := rfl
      simp [hfmt, pyStr]

/-- C4 witness: the `"123.4"` case evaluated at symbol `TCS`, quantity `2`,
with the empty insight oracle. -/
theorem avg_price_coercion_formatting_witness :
    holdingLines noInsight
      (PyVal.dict [("symbol", PyVal.str "TCS"), ("quantity", PyVal.int 2),
                   ("average_price", PyVal.str "123.4")]) =
      .ok ["• TCS | Qty: 2 | Avg: ₹123.40", "  (No update available)", ""]
    ∧ (["• TCS | Qty: 2 | Avg: ₹123.40", "  (No update available)", ""] : List String).get? 0 =
        some ("• " ++ pyUpperStr "TCS" ++ " | Qty: " ++ toString (2 : ℤ) ++ " | Avg: ₹" ++ "123.40") :=
  ⟨rfl, (avg_price_coercion_formatting "TCS" 2 (by decide)).1 noInsight _ rfl⟩

/-- C5 counterexample: the claim says the returned insight ends with exactly
one trailing period regardless of the input's trailing punctuation, but a
response text already ending in `".."` is returned unchanged
(`endswith(".")` holds, so nothing is appended), with two trailing periods. -/
theorem insight_double_period :
    ask_perplexity_for_insight (some "k")
      (.success (PyVal.dict [("choices",
        PyVal.list [PyVal.dict [("message", PyVal.dict [("content", PyVal.str "done..")])]])])) "TCS" =
      .ok "done.."
    ∧ trailingDots "done.." = 2 ∧ ¬ trailingDots "done.." = 1 :=
  ⟨rfl, rfl, by decide⟩

/-- C5 (amended): every text successfully returned by the insight fetch with
a configured key is whitespace-normalized (no leading or trailing whitespace,
internal whitespace runs collapsed to single `' '`) and ends with at least
one period — possibly more when the response text already ended with
several. -/
theorem insight_normalized_trailing_period (apiKey : Option String) (data : PyVal)
    (ticker s : String) (hkey : keyTruthy apiKey = true)
    (h : ask_perplexity_for_insight apiKey (.success data) ticker = .ok s) :
    isNormalized s = true ∧ pyEndsWithDot s = true := by
  rw [ask_success_eq apiKey data ticker hkey] at h
  rcases hx : extractChoiceText data with e | tv
  · rw [hx] at h
    simp [Bind.bind, Except.bind] at h
  · rw [hx] at h
    cases tv with
    | str s2 =>
      have hs2 : finishInsight s2 = s := by
        simpa [Bind.bind, Except.bind, pure, Except.pure] using h
      rw [← hs2]
      exact finishInsight_normalized s2
    | none => simp [Bind.bind, Except.bind] at h
    | int n => simp [Bind.bind, Except.bind] at h
    | float q => simp [Bind.bind, Except.bind] at h
    | list xs => simp [Bind.bind, Except.bind] at h
    | dict kvs => simp [Bind.bind, Except.bind] at h

/-- C5 witness: the amended theorem applied to the empty-choices response,
whose insight is `"."`. -/
theorem insight_normalized_trailing_period_witness :
    isNormalized "." = true ∧ pyEndsWithDot "." = true :=
  insight_normalized_trailing_period (some "k") (PyVal.dict [("choices", PyVal.list [])])
    "TCS" "." rfl rfl

/-- C6: the insight fetch never aborts the run — with no API key it returns
the empty insight whatever the network would do (no call is attempted: the
result is independent of `net`), a request failure is caught and returns the
empty insight, and with no API key every holding block that is produced has
`"  (No update available)"` as its insight line. -/
theorem insight_never_aborts (apiKey : Option String) (net : InsightNet) (ticker : String)
    (h : PyVal) (lns : List String) :
    (keyTruthy apiKey = false → ask_perplexity_for_insight apiKey net ticker = .ok "")
    ∧ ask_perplexity_for_insight apiKey .failure ticker = .ok ""
    ∧ (keyTruthy apiKey = false →
        holdingLines (ask_perplexity_for_insight apiKey net) h = .ok lns →
        lns.get? 1 = some "  (No update available)") := by
  refine ⟨?_, ?_, ?_⟩
  · intro hk
    unfold ask_perplexity_for_insight
    rw [if_neg (by simp [hk])]
  · cases hk : keyTruthy apiKey <;> simp [ask_perplexity_for_insight, hk]
  · intro hk hl
    have hask : ∀ t, ask_perplexity_for_insight apiKey net t = .ok "" := by
      intro t
      unfold ask_perplexity_for_insight
      rw [if_neg (by simp [hk])]
    unfold holdingLines at hl
    simp only [Bind.bind, Except.bind] at hl
    split at hl
    · exact absurd hl (by simp)
    split at hl
    · exact absurd hl (by simp)
    split at hl
    · exact absurd hl (by simp)
    split at hl
    · exact absurd hl (by simp)
    rw [hask] at hl
    simp only [pure, Except.pure] at hl
    simp at hl
    subst hl
    rfl

/-- C6 witness: with the key unset, a failing network is never consulted and
the TCS holding's insight line is the placeholder. -/
theorem insight_never_aborts_witness :
    ask_perplexity_for_insight Option.none .failure "TCS" = .ok ""
    ∧ (["• TCS | Qty: 10 | Avg: ₹3250.50", "  (No update available)", ""] : List String).get? 1 =
        some "  (No update available)" :=
  ⟨(insight_never_aborts Option.none .failure "TCS" tcsHolding []).1 rfl,
   (insight_never_aborts Option.none .failure "TCS" tcsHolding
      ["• TCS | Qty: 10 | Avg: ₹3250.50", "  (No update available)", ""]).2.2 rfl rfl⟩

/-- C7: `send_whatsapp` attempts the provider send exactly when all four
credentials are truthy; with any credential missing it prints the body
without attempting the call; a send failure is logged and the body printed
instead of raising; and a delivery sid is returned exactly on a successful
attempted send, otherwise `None`. -/
theorem send_whatsapp_credential_gating (cfg : TwilioConfig) (net : TwilioNet)
    (body sid : String) :
    ((send_whatsapp cfg net body).attemptedSend = true ↔ credsConfigured cfg = true)
    ∧ (credsConfigured cfg = false →
        send_whatsapp cfg net body = ⟨false, true, Option.none⟩)
    ∧ (credsConfigured cfg = true →
        send_whatsapp cfg TwilioNet.sendFail body = ⟨true, true, Option.none⟩)
    ∧ (credsConfigured cfg = true →
        send_whatsapp cfg (TwilioNet.sendOk sid) body = ⟨true, false, some sid⟩)
    ∧ ((send_whatsapp cfg net body).returned = some sid →
        net = TwilioNet.sendOk sid ∧ credsConfigured cfg = true) := by
  cases hc : credsConfigured cfg <;> cases net <;> simp [send_whatsapp, hc]

/-- C7 witness: a fully configured sender returns the delivery sid; with the
account id missing the body is printed and nothing is returned. -/
theorem send_whatsapp_credential_gating_witness :
    send_whatsapp ⟨some "A", some "B", some "C", some "D"⟩ (TwilioNet.sendOk "SID1") "m" =
      ⟨true, false, some "SID1"⟩
    ∧ send_whatsapp ⟨Option.none, some "B", some "C", some "D"⟩ TwilioNet.sendFail "m" =
      ⟨false, true, Option.none⟩ :=
  ⟨(send_whatsapp_credential_gating ⟨some "A", some "B", some "C", some "D"⟩
      (TwilioNet.sendOk "SID1") "m" "SID1").2.2.2.1 rfl,
   (send_whatsapp_credential_gating ⟨Option.none, some "B", some "C", some "D"⟩
      TwilioNet.sendFail "m" "x").2.1 rfl⟩

/-- C8: a falsy token from the SDK exchange makes `get_groww_access_token`
raise `RuntimeError`, the pipeline result is then independent of the holdings
fetch (the fetch is never reached), and `run` catches the exception and
terminates normally. -/
theorem token_failure_aborts_run (tok : PyVal) (f1 f2 : Except String PyVal)
    (insightFn : String → Except String String) (cfg : TwilioConfig) (net : TwilioNet)
    (htok : pyTruthy tok = false) :
    get_groww_access_token tok =
      .error "RuntimeError: Failed to retrieve access_token from Groww SDK."
    ∧ runPipeline tok f1 insightFn cfg net = runPipeline tok f2 insightFn cfg net
    ∧ run tok f1 insightFn cfg net = Option.none := by
  have hgt : get_groww_access_token tok =
      .error "RuntimeError: Failed to retrieve access_token from Groww SDK." := by
    unfold get_groww_access_token
    rw [if_neg (by simp [htok])]
  have hp : ∀ f : Except String PyVal, runPipeline tok f insightFn cfg net =
      .error "RuntimeError: Failed to retrieve access_token from Groww SDK." := by
    intro f
    unfold runPipeline
    rw [hgt]
    simp [Bind.bind, Except.bind]
  refine ⟨hgt, by rw [hp f1, hp f2], ?_⟩
  unfold run
  rw [hp f1]
  rfl

/-- C8 witness: a `None` token aborts that run's pipeline, and the swallowed
exception leaves `run` returning normally. -/
theorem token_failure_aborts_run_witness :
    get_groww_access_token PyVal.none =
      .error "RuntimeError: Failed to retrieve access_token from Groww SDK."
    ∧ run PyVal.none (.ok (PyVal.dict [("holdings", PyVal.list [])])) noInsight
        ⟨Option.none, Option.none, Option.none, Option.none⟩ TwilioNet.sendFail = Option.none :=
  ⟨(token_failure_aborts_run PyVal.none (.ok (PyVal.dict [("holdings", PyVal.list [])]))
      (.error "x") noInsight ⟨Option.none, Option.none, Option.none, Option.none⟩
      TwilioNet.sendFail rfl).1,
   (token_failure_aborts_run PyVal.none (.ok (PyVal.dict [("holdings", PyVal.list [])]))
      (.error "x") noInsight ⟨Option.none, Option.none, Option.none, Option.none⟩
      TwilioNet.sendFail rfl).2.2⟩
